import Mathlib

/-
Shallow embedding of src/src/BaneIngestSwitcher.tsx (Bane Ingest Switcher).
The React component keeps connection state, a filtered list of OBS inputs,
a selected source name, and the believed active URL of the selection.
Async OBS calls are modelled by splitting each handler at its await point:
an issue step (the guards executed before the request) and an apply step
(the code run when the response resolves), with in-flight requests kept in
an explicit pending list so arbitrary interleavings can be stated.
-/

/- An OBS input as cached locally: `type OBSSource = { name; kind }`. -/
structure OBSSource where
  name : String
  kind : String
deriving Repr, DecidableEq

/- A preset link: `type LinkItem = { id; name; url }`. -/
structure LinkItem where
  id : String
  name : String
  url : String
deriving Repr, DecidableEq

/- The settings object returned by GetInputSettings, restricted to the two
fields the component reads.  A missing field is `none`. -/
structure InputSettings where
  local_file : Option String
  url : Option String
deriving Repr, DecidableEq

/- `const SUPPORTED_KINDS = new Set(['ffmpeg_source','vlc_source','browser_source'])`. -/
def SUPPORTED_KINDS : List String := ["ffmpeg_source", "vlc_source", "browser_source"]

/- The component's React state relevant to the core logic.  `obsPresent`
models `obs.current !== null`; `selectedSourceRef` models the mutable ref
kept in sync with `selectedSource` by the effect at line 150. -/
structure AppState where
  obsPresent : Bool
  isConnected : Bool
  connError : Option String
  sources : List OBSSource
  selectedSource : String
  selectedSourceRef : String
  currentSourceUrl : Option String
deriving Repr, DecidableEq

/- JavaScript `(x as string) || y`: `undefined` and the empty string are
falsy, so both fall through to `y`. -/
def jsOrStr (x : Option String) (y : String) : String :=
  match x with
  | none => y
  | some s => if s == "" then y else s

/- The URL extraction inside fetchActiveState (lines 163-169): browser
sources read `url`, everything else prefers `local_file` and falls back to
`url`, defaulting to the empty string. -/
def extractActiveUrl (inputKind : String) (inputSettings : InputSettings) : String :=
  if inputKind == "browser_source" then
    jsOrStr inputSettings.url ""
  else
    jsOrStr inputSettings.local_file (jsOrStr inputSettings.url "")

/- A GetInputSettings response: `.error` is a rejected call (e.g. the input
no longer exists), `.ok` carries `{ inputKind, inputSettings }`. -/
def FetchResponse : Type := Except Unit (String × InputSettings)

/- The code run when a GetInputSettings promise resolves (lines 161-173):
a success stores the extracted URL unconditionally, a rejection is
swallowed by the catch block and changes nothing. -/
def fetchActiveStateApply (s : AppState) (resp : FetchResponse) : AppState :=
  match resp with
  | .error _ => s
  | .ok (inputKind, inputSettings) =>
      { s with currentSourceUrl := some (extractActiveUrl inputKind inputSettings) }

/- The ConnectionClosed listener (lines 112-116). -/
def handleConnectionClosed (s : AppState) : AppState :=
  { s with isConnected := false,
           connError := some "Connection lost.",
           currentSourceUrl := none }

/- disconnectOBS (lines 138-144): guarded on `obs.current`. -/
def disconnectOBS (s : AppState) : AppState :=
  if s.obsPresent then
    { s with isConnected := false, currentSourceUrl := none }
  else s

/- An in-flight GetInputSettings request. -/
structure PendingFetch where
  sourceName : String
deriving Repr, DecidableEq

/- The component state together with the in-flight reconciliation requests,
kept in issue order. -/
structure Sys where
  app : AppState
  pending : List PendingFetch
deriving Repr, DecidableEq

/- fetchActiveState up to its await (lines 158-161): the guard
`if (!obs.current || !isConnected || !sourceName) return;` and then the
issue of a GetInputSettings request.  fetchActiveState is a useCallback
with deps [isConnected], so the `isConnected` read by the guard is the one
captured when that closure was created — `capturedIsConnected` here — while
`obs.current` is a ref and is read live from the state. -/
def fetchActiveStateIssue (capturedIsConnected : Bool) (sys : Sys)
    (sourceName : String) : Sys :=
  if sys.app.obsPresent && capturedIsConnected && sourceName != "" then
    { sys with pending := sys.pending ++ [{ sourceName := sourceName }] }
  else sys

/- A pending request resolves with `resp`; the code after the await runs
(fetchActiveStateApply), with no check that the request is still relevant. -/
def resolveFetch (sys : Sys) (i : Nat) (resp : FetchResponse) : Sys :=
  if i < sys.pending.length then
    { app := fetchActiveStateApply sys.app resp,
      pending := sys.pending.eraseIdx i }
  else sys

/- A selection change: the select element's onChange plus the effects that
react to it — the ref sync at line 150 and the selection-change effect at
lines 177-183, which reconciles the new selection or clears the active URL.
The effect lists fetchActiveState among its deps, so it always runs the
current render's closure, whose captured isConnected equals the live one. -/
def selectSource (sys : Sys) (name : String) : Sys :=
  let app := { sys.app with selectedSource := name, selectedSourceRef := name }
  if name != "" && app.isConnected then
    fetchActiveStateIssue app.isConnected { sys with app := app } name
  else
    { sys with app := { app with currentSourceUrl := none } }

/- The InputSettingsChanged listener body (lines 118-126) via
updateActiveStateIfMatches (lines 152-156): compares the event's input name
to the live ref and on a match calls whichever fetchActiveState closure the
registering render captured. -/
def handleInputSettingsChanged (capturedIsConnected : Bool) (sys : Sys)
    (inputName : String) : Sys :=
  if inputName == sys.app.selectedSourceRef then
    fetchActiveStateIssue capturedIsConnected sys inputName
  else sys

/- The listener as actually registered: connectToOBS is reachable only via
`onClick={isConnected ? disconnectOBS : connectToOBS}` (line 400), i.e. from
a render where isConnected is false, and the updateActiveStateIfMatches it
closes over holds that render's fetchActiveState, whose captured
isConnected is therefore false. -/
def registeredInputSettingsChangedListener (sys : Sys) (inputName : String) : Sys :=
  handleInputSettingsChanged false sys inputName

/- An entry of the GetInputList response: `inputKind` may be null. -/
structure RawInput where
  inputName : String
  inputKind : Option String
deriving Repr, DecidableEq

/- The filter-and-map inside fetchSources (lines 190-195): keep inputs whose
kind is non-null and in the supported set. -/
def filterSupported (inputs : List RawInput) : List OBSSource :=
  (inputs.filter (fun i =>
      match i.inputKind with
      | none => false
      | some k => SUPPORTED_KINDS.contains k)).map
    (fun i => { name := i.inputName, kind := i.inputKind.getD "" })

/- The code run when a GetInputList promise resolves inside fetchSources
(lines 189-206): store the filtered list, then repair the selection — reset
to the first entry when the current selection is empty or absent, clear it
when the list is empty, keep it otherwise.  Setting the selection also runs
the ref-sync effect. -/
def fetchSourcesApply (s : AppState) (inputs : List RawInput) : AppState :=
  let mediaSources := filterSupported inputs
  match mediaSources with
  | [] =>
      { s with sources := [], selectedSource := "", selectedSourceRef := "" }
  | first :: rest =>
      if s.selectedSource == "" ||
         ((first :: rest).find? (fun src => src.name == s.selectedSource)).isNone then
        { s with sources := first :: rest,
                 selectedSource := first.name, selectedSourceRef := first.name }
      else
        { s with sources := first :: rest }

/- The network-scheme test in switchMedia (line 223). -/
def isNetworkLink (u : String) : Bool :=
  u.startsWith "http" || u.startsWith "rtmp" || u.startsWith "srt" || u.startsWith "udp"

/- The settings object passed to SetInputSettings, restricted to the three
fields switchMedia can set; `none` means the field is not in the payload. -/
structure SettingsPayload where
  local_file : Option String
  is_local_file : Option Bool
  url : Option String
deriving Repr, DecidableEq

/- The kind dispatch in switchMedia (lines 226-240). -/
def buildSwitchSettings (kind : String) (linkUrl : String) : SettingsPayload :=
  if kind == "ffmpeg_source" || kind == "vlc_source" then
    { local_file := some linkUrl, is_local_file := some (!isNetworkLink linkUrl), url := none }
  else if kind == "browser_source" then
    { local_file := none, is_local_file := none, url := some linkUrl }
  else
    { local_file := some linkUrl, is_local_file := none, url := some linkUrl }

/- Everything observable about one switchMedia call: the resulting component
state, the SetInputSettings command issued (input name, settings, overlay
flag) if any, whether a sources refresh was started, and the alert text
shown if any. -/
structure SwitchResult where
  state : AppState
  command : Option (String × SettingsPayload × Bool)
  refreshTriggered : Bool
  alertShown : Option String
deriving Repr, DecidableEq

/- switchMedia (lines 213-252).  `callResult` is the transport outcome of
the SetInputSettings call, consulted only when the command is reached: the
guard at line 214 returns silently, a selection missing from the cached
sources alerts and refreshes (lines 216-221), a successful call sets the
active URL optimistically, and a failed call only alerts. -/
def switchMedia (s : AppState) (link : LinkItem) (callResult : Except String Unit) :
    SwitchResult :=
  if !s.obsPresent || !s.isConnected || s.selectedSource == "" then
    { state := s, command := none, refreshTriggered := false, alertShown := none }
  else
    match s.sources.find? (fun src => src.name == s.selectedSource) with
    | none =>
        { state := s, command := none, refreshTriggered := true,
          alertShown := some "Source not found. Refreshing..." }
    | some source =>
        let settings := buildSwitchSettings source.kind link.url
        match callResult with
        | .ok _ =>
            { state := { s with currentSourceUrl := some link.url },
              command := some (s.selectedSource, settings, true),
              refreshTriggered := false, alertShown := none }
        | .error msg =>
            { state := s,
              command := some (s.selectedSource, settings, true),
              refreshTriggered := false,
              alertShown := some ("Failed to switch: " ++ msg) }

/- A connected state with two supported sources and a valid selection, used
as a concrete input in several witnesses. -/
def connState : AppState :=
  { obsPresent := true, isConnected := true, connError := none,
    sources := [{ name := "Media", kind := "ffmpeg_source" },
                { name := "Overlay", kind := "browser_source" }],
    selectedSource := "Media", selectedSourceRef := "Media",
    currentSourceUrl := none }

/- The same state with a believed active URL. -/
def connStateWithUrl : AppState :=
  { connState with currentSourceUrl := some "rtmp://old/stream" }

/- A disconnected state that still caches sources and a selection. -/
def disconnState : AppState :=
  { connState with isConnected := false }

/- A connected state with no selection. -/
def noSelState : AppState :=
  { connState with selectedSource := "", selectedSourceRef := "" }

/- A connected state whose selection is missing from the cached sources. -/
def missingSelState : AppState :=
  { connState with sources := [{ name := "Overlay", kind := "browser_source" }] }

/- A concrete preset link. -/
def linkMain : LinkItem :=
  { id := "l1", name := "Main", url := "rtmp://live/main" }

/- A concrete local-path preset link. -/
def linkLocal : LinkItem :=
  { id := "l2", name := "Loop", url := "C:/loops/idle.mp4" }

/- A connected state with Overlay selected and nothing in flight. -/
def sysSel : Sys := { app := connState, pending := [] }

/- Trace for the stale-selection scenario, driven entirely by selection
changes (the one fetch-issuing path whose closure sees the live connected
flag): from Overlay the user selects Media, issuing a fetch for Media, then
moves to Overlay while that request is still in flight, issuing a second
fetch; finally the late Media response resolves. -/
def sysPrev : Sys :=
  { app := { connState with selectedSource := "Overlay", selectedSourceRef := "Overlay" },
    pending := [] }

def sysSelMedia : Sys := selectSource sysPrev "Media"

def sysSelMoved : Sys := selectSource sysSelMedia "Overlay"

def sysSelLate : Sys :=
  resolveFetch sysSelMoved 0 (Except.ok ("ffmpeg_source", ⟨some "C:/stale.mp4", none⟩))

/- Trace for the reordered-responses scenario: the user flips the selection
Overlay → Media → Overlay → Media; the first Media fetch (t1) is still in
flight when the second Media fetch (t2) is issued; then the t2 response
arrives first and the t1 response last. -/
def sysTwoStart : Sys :=
  { app := { connState with selectedSource := "Overlay", selectedSourceRef := "Overlay" },
    pending := [] }

def sysTwoMediaT1 : Sys := selectSource sysTwoStart "Media"

def sysTwoOverlay : Sys := selectSource sysTwoMediaT1 "Overlay"

def sysTwoIssued : Sys := selectSource sysTwoOverlay "Media"

def sysTwoAfterT2 : Sys :=
  resolveFetch sysTwoIssued 2 (Except.ok ("ffmpeg_source", ⟨some "C:/v2.mp4", none⟩))

def sysTwoAfterT1 : Sys :=
  resolveFetch sysTwoAfterT2 0 (Except.ok ("ffmpeg_source", ⟨some "C:/v1.mp4", none⟩))

/- Finding a source by name fails exactly when the name is not among the
listed names. -/
theorem find_name_eq_none_iff (R : List OBSSource) (x : String) :
    R.find? (fun src => src.name == x) = none ↔ x ∉ R.map OBSSource.name := by
  rw [List.find?_eq_none]
  constructor
  · intro h hx
    rcases List.mem_map.mp hx with ⟨a, ha, hax⟩
    exact h a ha (by simp [hax])
  · intro h a ha hax
    exact h (List.mem_map.mpr ⟨a, ha, by simpa using hax⟩)

/- Resolving any in-flight reconciliation with a successful response stores
the extracted URL, with no relevance check. -/
theorem resolve_ok_url (sys : Sys) (i : Nat) (k : String) (st : InputSettings)
    (h : i < sys.pending.length) :
    (resolveFetch sys i (Except.ok (k, st))).app.currentSourceUrl =
      some (extractActiveUrl k st) := by
  simp [resolveFetch, h, fetchActiveStateApply]

/-- C2: the claim says a matching event triggers a reconciliation fetch
compared against the live selection.  The name comparison is indeed live
(through the ref), but the listener registered by connectToOBS — reachable
only from a render where isConnected is false — holds that render's
fetchActiveState closure, whose captured isConnected is false, so its guard
returns before issuing the request: the registered listener changes nothing
on any state, even a connected one whose live selection equals the event's
input name. -/
theorem inputSettingsChanged_dead_path :
    (∀ sys n, registeredInputSettingsChangedListener sys n = sys) ∧
    sysSel.app.isConnected = true ∧
    sysSel.app.obsPresent = true ∧
    sysSel.app.selectedSource = "Media" ∧
    sysSel.app.selectedSourceRef = "Media" ∧
    registeredInputSettingsChangedListener sysSel "Media" = sysSel := by
  have hall : ∀ sys n, registeredInputSettingsChangedListener sys n = sys := by
    intro sys n
    unfold registeredInputSettingsChangedListener handleInputSettingsChanged
      fetchActiveStateIssue
    by_cases h : n == sys.app.selectedSourceRef <;> simp [h]
  exact ⟨hall, rfl, rfl, rfl, rfl, hall sysSel "Media"⟩

/-- C3: the claim says a late reconciliation response for input A arriving
after the selection moved to B does not alter ActiveTarget.
Counterexample: selecting Media puts a fetch for Media in flight, the
selection then moves to Overlay, and resolving Media's late response still
overwrites ActiveTarget with the stale value. -/
theorem stale_selection_applied_cx :
    sysSelMedia.app.selectedSource = "Media" ∧
    sysSelMedia.pending = [{ sourceName := "Media" }] ∧
    sysSelMoved.app.selectedSource = "Overlay" ∧
    sysSelMoved.pending = [{ sourceName := "Media" }, { sourceName := "Overlay" }] ∧
    sysSelLate.app.currentSourceUrl = some "C:/stale.mp4" ∧
    sysSelMoved.app.currentSourceUrl ≠ some "C:/stale.mp4" := by
  decide

/-- C3 (amended): a late successful response for a previous selection is
applied, not dropped: resolving any in-flight reconciliation stores the
extracted URL into ActiveTarget unconditionally, whatever input the request
was for and whatever selection is current, leaving the selection itself
unchanged. -/
theorem resolveFetch_applies_unconditionally (sys : Sys) (i : Nat) (k : String)
    (st : InputSettings) (h : i < sys.pending.length) :
    (resolveFetch sys i (Except.ok (k, st))).app.currentSourceUrl =
      some (extractActiveUrl k st) ∧
    (resolveFetch sys i (Except.ok (k, st))).app.selectedSource =
      sys.app.selectedSource := by
  refine ⟨resolve_ok_url sys i k st h, ?_⟩
  simp [resolveFetch, h, fetchActiveStateApply]

/-- C3 amended-theorem witness. -/
theorem resolveFetch_applies_unconditionally_witness :
    (resolveFetch sysSelMoved 0
        (Except.ok ("ffmpeg_source", ⟨some "C:/stale.mp4", none⟩))).app.currentSourceUrl =
      some (extractActiveUrl "ffmpeg_source" ⟨some "C:/stale.mp4", none⟩) :=
  (resolveFetch_applies_unconditionally sysSelMoved 0 "ffmpeg_source"
      ⟨some "C:/stale.mp4", none⟩ (by decide)).1

/-- C4: the claim says that with two reconciliations for the same input in
flight, the result of the most recently issued one wins even when responses
arrive out of order.  Counterexample: flipping the selection
Overlay → Media → Overlay → Media issues two fetches for Media (t1, t2)
that are both in flight; the second-issued response (v2) arrives first,
then the first-issued response (v1) arrives and overwrites it, leaving
ActiveTarget at v1, not v2. -/
theorem last_issued_wins_cx :
    sysTwoIssued.app.selectedSource = "Media" ∧
    sysTwoIssued.pending =
      [{ sourceName := "Media" }, { sourceName := "Overlay" },
       { sourceName := "Media" }] ∧
    sysTwoAfterT2.app.currentSourceUrl = some "C:/v2.mp4" ∧
    sysTwoAfterT1.app.currentSourceUrl = some "C:/v1.mp4" ∧
    sysTwoAfterT1.app.currentSourceUrl ≠ some "C:/v2.mp4" := by
  decide

/-- C4 (amended): the applied result is that of the response that arrives
last, not the one issued last: whenever two successful responses are
applied in sequence, ActiveTarget ends at the extraction of the
later-arriving one, regardless of issue order. -/
theorem late_response_overwrites (sys : Sys) (i j : Nat)
    (kFirst kLast : String) (stFirst stLast : InputSettings)
    (hj : j < (resolveFetch sys i (Except.ok (kFirst, stFirst))).pending.length) :
    (resolveFetch (resolveFetch sys i (Except.ok (kFirst, stFirst))) j
        (Except.ok (kLast, stLast))).app.currentSourceUrl =
      some (extractActiveUrl kLast stLast) :=
  resolve_ok_url (resolveFetch sys i (Except.ok (kFirst, stFirst))) j kLast stLast hj

/-- C4 amended-theorem witness. -/
theorem late_response_overwrites_witness :
    (resolveFetch
        (resolveFetch sysTwoIssued 2 (Except.ok ("ffmpeg_source", ⟨some "C:/v2.mp4", none⟩)))
        0 (Except.ok ("ffmpeg_source", ⟨some "C:/v1.mp4", none⟩))).app.currentSourceUrl =
      some (extractActiveUrl "ffmpeg_source" ⟨some "C:/v1.mp4", none⟩) :=
  late_response_overwrites sysTwoIssued 2 0 "ffmpeg_source" "ffmpeg_source"
    ⟨some "C:/v2.mp4", none⟩ ⟨some "C:/v1.mp4", none⟩ (by decide)

/-- C1: the claim says a sessionEnded event or a disconnect clears all of
the sources list, the selection and ActiveTarget.  Counterexample: from a
connected state with cached sources and a selection, the ConnectionClosed
handler and disconnectOBS leave the sources list and the selection in
place; only ActiveTarget is cleared. -/
theorem connectionClosed_keeps_sources_cx :
    (handleConnectionClosed connState).sources ≠ [] ∧
    (handleConnectionClosed connState).selectedSource ≠ "" ∧
    (disconnectOBS connState).sources ≠ [] ∧
    (disconnectOBS connState).selectedSource ≠ "" ∧
    (handleConnectionClosed connState).currentSourceUrl = none ∧
    (disconnectOBS connState).currentSourceUrl = none := by
  decide

/-- C1 (amended): a ConnectionClosed event clears ActiveTarget, marks the
connection lost and records an error message, and a disconnect (with a live
handle) clears ActiveTarget and the connected flag, but in both cases the
sources list and the current selection are left unchanged. -/
theorem connectionClosed_clears_only_active (s : AppState) :
    (handleConnectionClosed s).currentSourceUrl = none ∧
    (handleConnectionClosed s).isConnected = false ∧
    (handleConnectionClosed s).sources = s.sources ∧
    (handleConnectionClosed s).selectedSource = s.selectedSource ∧
    (disconnectOBS s).currentSourceUrl =
      (if s.obsPresent then none else s.currentSourceUrl) ∧
    (disconnectOBS s).isConnected = (if s.obsPresent then false else s.isConnected) ∧
    (disconnectOBS s).sources = s.sources ∧
    (disconnectOBS s).selectedSource = s.selectedSource := by
  unfold handleConnectionClosed disconnectOBS
  cases h : s.obsPresent <;> simp [h]

/-- C6: the claim says switchTo without a connection fails with a
NotConnected error and with an empty selection fails with a NoSelection
error, each surfaced to the caller.  Counterexample: in both situations
switchMedia returns silently — no command, no refresh, no alert — and the
two outcomes are observably identical, so no distinguishable error is ever
surfaced. -/
theorem switch_guard_silent_cx :
    disconnState.isConnected = false ∧
    noSelState.selectedSource = "" ∧
    (switchMedia disconnState linkMain (Except.ok ())).alertShown = none ∧
    (switchMedia disconnState linkMain (Except.ok ())).command = none ∧
    (switchMedia disconnState linkMain (Except.ok ())).refreshTriggered = false ∧
    (switchMedia noSelState linkMain (Except.ok ())).alertShown = none ∧
    (switchMedia noSelState linkMain (Except.ok ())).command = none ∧
    (switchMedia noSelState linkMain (Except.ok ())).refreshTriggered = false := by
  decide

/-- C6 (amended): switchMedia called without an active connection or with
an empty selection is a silent no-op: it issues no command, triggers no
refresh, shows no message and leaves the state unchanged, so the two
failure cases are not distinguishable by the caller. -/
theorem switch_guard_silent_noop (s : AppState) (link : LinkItem)
    (r : Except String Unit)
    (h : s.isConnected = false ∨ s.selectedSource = "") :
    switchMedia s link r =
      { state := s, command := none, refreshTriggered := false, alertShown := none } := by
  unfold switchMedia
  rcases h with h | h <;> simp [h]

/-- C6 witness. -/
theorem switch_guard_silent_noop_witness :
    switchMedia disconnState linkMain (Except.ok ()) =
      { state := disconnState, command := none,
        refreshTriggered := false, alertShown := none } :=
  switch_guard_silent_noop disconnState linkMain (Except.ok ()) (Or.inl rfl)

/-- C7: when the guards pass and the selection is found among the cached
sources, a successful SetInputSettings call sets ActiveTarget optimistically
to link.url and the command carries the overlay flag; a transport failure
leaves the state (hence ActiveTarget) unchanged and surfaces the failure
message. -/
theorem switch_optimistic_update (s : AppState) (link : LinkItem) (src : OBSSource)
    (hobs : s.obsPresent = true) (hconn : s.isConnected = true)
    (hsel : s.selectedSource ≠ "")
    (hfind : s.sources.find? (fun t => t.name == s.selectedSource) = some src) :
    ((switchMedia s link (Except.ok ())).state.currentSourceUrl = some link.url ∧
     (switchMedia s link (Except.ok ())).command =
        some (s.selectedSource, buildSwitchSettings src.kind link.url, true) ∧
     (switchMedia s link (Except.ok ())).alertShown = none) ∧
    (∀ msg, (switchMedia s link (Except.error msg)).state = s ∧
       (switchMedia s link (Except.error msg)).alertShown =
         some ("Failed to switch: " ++ msg)) := by
  have hselb : (s.selectedSource == "") = false := beq_eq_false_iff_ne.mpr hsel
  unfold switchMedia
  simp [hobs, hconn, hselb, hfind]

/-- C7 witness. -/
theorem switch_optimistic_update_witness :
    (switchMedia connState linkMain (Except.ok ())).state.currentSourceUrl =
      some linkMain.url :=
  ((switch_optimistic_update connState linkMain
      { name := "Media", kind := "ffmpeg_source" } rfl rfl (by decide) (by decide)).1).1

/-- C8: after a successful refresh with filtered result R, the sources list
becomes R; the selection is kept when it is non-empty and among the names
of R, and otherwise becomes the first name of R (or empty when R is empty);
in every case the new selection is empty or names an element of R. -/
theorem fetchSources_selection_repair (s : AppState) (inputs : List RawInput) :
    (fetchSourcesApply s inputs).sources = filterSupported inputs ∧
    (fetchSourcesApply s inputs).selectedSource =
      (if s.selectedSource ≠ "" ∧
          s.selectedSource ∈ (filterSupported inputs).map OBSSource.name
       then s.selectedSource
       else ((filterSupported inputs).map OBSSource.name).headD "") ∧
    ((fetchSourcesApply s inputs).selectedSource = "" ∨
     (fetchSourcesApply s inputs).selectedSource ∈
       (filterSupported inputs).map OBSSource.name) := by
  unfold fetchSourcesApply
  cases hR : filterSupported inputs with
  | nil => simp
  | cons first rest =>
    by_cases hsel : s.selectedSource = ""
    · simp [hsel]
    · have hselb : (s.selectedSource == "") = false := beq_eq_false_iff_ne.mpr hsel
      by_cases hfind : (first :: rest).find? (fun src => src.name == s.selectedSource)
          = none
      · have hmem : s.selectedSource ∉ (first :: rest).map OBSSource.name :=
          (find_name_eq_none_iff _ _).mp hfind
        simp [hselb, hfind, hsel]
        split
        · rename_i hc
          exfalso
          rcases hc with hc | ⟨a, ha, han⟩
          · exact hmem (by simp [hc])
          · exact hmem (List.mem_map.mpr ⟨a, List.mem_cons_of_mem _ ha, han⟩)
        · rfl
      · rcases Option.ne_none_iff_exists.mp hfind with ⟨a, ha⟩
        have hpa := List.find?_some ha.symm
        have han : a.name = s.selectedSource := by simpa using hpa
        have hain : a ∈ first :: rest := List.mem_of_find?_eq_some ha.symm
        have hmem : s.selectedSource ∈ (first :: rest).map OBSSource.name :=
          List.mem_map.mpr ⟨a, hain, han⟩
        simp [hselb, ha.symm, hsel, hmem]
        have hd : s.selectedSource = first.name ∨ ∃ b ∈ rest, b.name = s.selectedSource := by
          rcases List.mem_cons.mp hain with h1 | h2
          · exact Or.inl (by rw [← han, h1])
          · exact Or.inr ⟨a, h2, han⟩
        rw [if_pos hd]
        exact ⟨rfl, hd⟩

/-- C5: a link is a network target exactly when its URL starts with http,
rtmp, srt or udp; switching an ffmpeg or vlc source sets exactly
local_file = link.url and is_local_file = NOT isNetwork; a browser source
sets exactly url = link.url; an unrecognized kind sets both local_file and
url to link.url; and the settings switchMedia sends are built this way from
the found source's kind and the link's URL. -/
theorem switch_settings_field_mapping (u k : String) (s : AppState)
    (link : LinkItem) (src : OBSSource) (r : Except String Unit)
    (hobs : s.obsPresent = true) (hconn : s.isConnected = true)
    (hsel : s.selectedSource ≠ "")
    (hfind : s.sources.find? (fun t => t.name == s.selectedSource) = some src) :
    (isNetworkLink u = true ↔
      (u.startsWith "http" = true ∨ u.startsWith "rtmp" = true ∨
       u.startsWith "srt" = true ∨ u.startsWith "udp" = true)) ∧
    buildSwitchSettings "ffmpeg_source" u =
      { local_file := some u, is_local_file := some (!isNetworkLink u), url := none } ∧
    buildSwitchSettings "vlc_source" u =
      { local_file := some u, is_local_file := some (!isNetworkLink u), url := none } ∧
    buildSwitchSettings "browser_source" u =
      { local_file := none, is_local_file := none, url := some u } ∧
    (k ∉ SUPPORTED_KINDS →
      buildSwitchSettings k u =
        { local_file := some u, is_local_file := none, url := some u }) ∧
    (switchMedia s link r).command =
      some (s.selectedSource, buildSwitchSettings src.kind link.url, true) := by
  have hselb : (s.selectedSource == "") = false := beq_eq_false_iff_ne.mpr hsel
  refine ⟨?_, ?_, ?_, ?_, ?_, ?_⟩
  · simp [isNetworkLink, Bool.or_eq_true, or_assoc]
  · simp [buildSwitchSettings]
  · simp [buildSwitchSettings]
  · simp [buildSwitchSettings]
  · intro hk
    simp only [SUPPORTED_KINDS, List.mem_cons, List.not_mem_nil, or_false,
      not_or] at hk
    obtain ⟨h1, h2, h3⟩ := hk
    simp [buildSwitchSettings, beq_eq_false_iff_ne.mpr h1,
      beq_eq_false_iff_ne.mpr h2, beq_eq_false_iff_ne.mpr h3]
  · unfold switchMedia
    cases r <;> simp [hobs, hconn, hselb, hfind]

/-- C5 witness. -/
theorem switch_settings_field_mapping_witness :
    buildSwitchSettings "custom_kind" "rtmp://live/main" =
      { local_file := some "rtmp://live/main", is_local_file := none,
        url := some "rtmp://live/main" } :=
  (switch_settings_field_mapping "rtmp://live/main" "custom_kind" connState
      linkMain { name := "Media", kind := "ffmpeg_source" } (Except.ok ())
      rfl rfl (by decide) (by decide)).2.2.2.2.1 (by decide)

/-- C9: the claim says reconcile yields a cleared ActiveTarget (unknown)
when the input no longer exists.  Counterexample: with a believed active
URL in place, a rejected GetInputSettings call (the vanished-input case) is
swallowed silently and ActiveTarget keeps its previous value instead of
becoming unknown. -/
theorem reconcile_notfound_keeps_value_cx :
    (fetchActiveStateApply connStateWithUrl (Except.error ())).currentSourceUrl =
      some "rtmp://old/stream" ∧
    fetchActiveStateApply connStateWithUrl (Except.error ()) = connStateWithUrl ∧
    connStateWithUrl.currentSourceUrl ≠ none := by
  decide

/-- C9 (amended): reconciliation extracts the target by kind precedence —
browser sources read the url field, every other kind prefers local_file and
falls back to url when it is absent or empty — and a failed fetch (the
input no longer exists) is swallowed silently, leaving the whole state and
in particular ActiveTarget unchanged rather than cleared or fatal. -/
theorem reconcile_extraction (s : AppState) (k : String) (st : InputSettings) :
    ((fetchActiveStateApply s (Except.ok (k, st))).currentSourceUrl =
        some (if k = "browser_source" then jsOrStr st.url ""
              else jsOrStr st.local_file (jsOrStr st.url ""))) ∧
    fetchActiveStateApply s (Except.error ()) = s ∧
    (∀ l, l ≠ "" → st.local_file = some l → k ≠ "browser_source" →
        (fetchActiveStateApply s (Except.ok (k, st))).currentSourceUrl = some l) ∧
    (∀ u, st.local_file = none → st.url = some u → u ≠ "" → k ≠ "browser_source" →
        (fetchActiveStateApply s (Except.ok (k, st))).currentSourceUrl = some u) ∧
    (∀ u, st.url = some u → u ≠ "" → k = "browser_source" →
        (fetchActiveStateApply s (Except.ok (k, st))).currentSourceUrl = some u) := by
  refine ⟨?_, rfl, ?_, ?_, ?_⟩
  · by_cases hk : k = "browser_source" <;>
      simp [fetchActiveStateApply, extractActiveUrl, hk]
  · intro l hl hlf hk
    simp [fetchActiveStateApply, extractActiveUrl, hk, hlf, jsOrStr, hl]
  · intro u hlf hu hune hk
    simp [fetchActiveStateApply, extractActiveUrl, hk, hlf, hu, jsOrStr, hune]
  · intro u hu hune hk
    simp [fetchActiveStateApply, extractActiveUrl, hk, hu, jsOrStr, hune]

/-- C9 amended-theorem witness. -/
theorem reconcile_extraction_witness :
    (fetchActiveStateApply connState
        (Except.ok ("ffmpeg_source",
          { local_file := some "C:/v.mp4", url := some "http://u" }))).currentSourceUrl =
      some "C:/v.mp4" :=
  (reconcile_extraction connState "ffmpeg_source"
      { local_file := some "C:/v.mp4", url := some "http://u" }).2.2.1
    "C:/v.mp4" (by decide) rfl (by decide)

/-- C10: when connected with a non-empty selection that is missing from the
locally cached sources list, switchMedia issues no command, leaves the
state (hence ActiveTarget) unchanged, triggers a sources refresh and shows
the refresh alert. -/
theorem switch_missing_source_refreshes (s : AppState) (link : LinkItem)
    (r : Except String Unit)
    (hobs : s.obsPresent = true) (hconn : s.isConnected = true)
    (hsel : s.selectedSource ≠ "")
    (hfind : s.sources.find? (fun t => t.name == s.selectedSource) = none) :
    switchMedia s link r =
      { state := s, command := none, refreshTriggered := true,
        alertShown := some "Source not found. Refreshing..." } := by
  have hselb : (s.selectedSource == "") = false := beq_eq_false_iff_ne.mpr hsel
  unfold switchMedia
  simp [hobs, hconn, hselb, hfind]

/-- C10 witness. -/
theorem switch_missing_source_refreshes_witness :
    switchMedia missingSelState linkMain (Except.ok ()) =
      { state := missingSelState, command := none, refreshTriggered := true,
        alertShown := some "Source not found. Refreshing..." } :=
  switch_missing_source_refreshes missingSelState linkMain (Except.ok ())
    rfl rfl (by decide) (by decide)
